import Mathlib

/-!
Shallow embedding of the OpenRCT2 Scenario Editor controller
(`src/openrct2/Editor.cpp`) together with proofs about its behaviour.

Pure C++ functions are translated into Lean functions; the global mutable
state (the `GameState` fields, `gScreenFlags`, `gScreenAge`, and the
selected-object flag table `_editorSelectedObjectFlags`) becomes explicit
state passing.  External collaborators (object manager, window manager,
footpath queries, park importer, finance helpers, ...) are abstracted as
parameters collected in an `Env` structure, mirroring the collaborator
facade of the specification.  Machine integers are modelled as `Nat`/`Int`
with explicit `% 2 ^ w` truncation where the C++ performs a narrowing
assignment to `uint8_t`, and the 32-bit complement `~flags` is modelled
explicitly.
-/

namespace Editor

/-- Content-pack kinds (`ObjectType`): the closed enumeration from the data
model.  Only the members used by the editor controller are listed; the
reserved value `None` denotes "no kind". -/
inductive ObjectType
  | Ride
  | Station
  | TerrainSurface
  | TerrainEdge
  | FootpathSurface
  | FootpathRailings
  | ParkEntrance
  | Water
  | Scenery
  | Music
  | None
  deriving DecidableEq

/-- Localisation message identifiers (`StringId`).  The identifiers are
opaque UI contracts; we enumerate exactly the ones the editor controller
returns. -/
inductive StringId
  | STR_NONE
  | STR_AT_LEAST_ONE_FOOTPATH_NON_QUEUE_SURFACE_OBJECT_MUST_BE_SELECTED
  | STR_AT_LEAST_ONE_FOOTPATH_QUEUE_SURFACE_OBJECT_MUST_BE_SELECTED
  | STR_AT_LEAST_ONE_FOOTPATH_RAILING_OBJECT_MUST_BE_SELECTED
  | STR_AT_LEAST_ONE_RIDE_OBJECT_MUST_BE_SELECTED
  | STR_AT_LEAST_ONE_STATION_OBJECT_MUST_BE_SELECTED
  | STR_AT_LEAST_ONE_TERRAIN_SURFACE_OBJECT_MUST_BE_SELECTED
  | STR_AT_LEAST_ONE_TERRAIN_EDGE_OBJECT_MUST_BE_SELECTED
  | STR_PARK_ENTRANCE_TYPE_MUST_BE_SELECTED
  | STR_WATER_TYPE_MUST_BE_SELECTED
  | STR_PARK_MUST_OWN_SOME_LAND
  | STR_NO_PARK_ENTRANCES
  | STR_PARK_ENTRANCE_WRONG_DIRECTION_OR_NO_PATH
  | STR_PARK_ENTRANCE_PATH_INCOMPLETE_OR_COMPLEX
  | STR_PEEP_SPAWNS_NOT_SET
  | STR_MY_NEW_SCENARIO
  deriving DecidableEq

/-- Editor authoring steps (`EditorStep`). -/
inductive EditorStep
  | ObjectSelection
  | InventionsListSetUp
  | OptionsSelection
  | ObjectiveSelection
  | LandscapeEditor
  | SaveScenario
  | RollercoasterDesigner
  | DesignsManager
  | Invalid
  deriving DecidableEq

/-! ## Selected-object flag store

`static std::array<std::vector<uint8_t>, EnumValue(ObjectType::Count)>
_editorSelectedObjectFlags` is modelled as a function from object types to
dense byte sequences (`List Nat`, every entry `< 256` for stores built by
the operations). -/

/-- The selected-object flag table: one dense byte sequence per object
type. -/
def FlagStore : Type := ObjectType → List Nat

/-- A fresh store: every sequence empty — the state of the static table at
process start. -/
def freshFlagStore : FlagStore := fun _ => []

/-- Modelled from the spec: `OBJECT_ENTRY_INDEX_NULL` is the sentinel
"null index" (declared outside `src/`, a `uint16_t` maximum). -/
def OBJECT_ENTRY_INDEX_NULL : Nat := 65535

/-- 32-bit complement, as computed by `~flags` on a `uint32_t`. -/
def not32 (x : Nat) : Nat := (x % 2 ^ 32) ^^^ (2 ^ 32 - 1)

/-- `list.resize(index + 1)` as performed by the store operations when the
sequence is too short (`list.size() <= index`): grow with zero fill;
otherwise the sequence is left unchanged. -/
def growTo (list : List Nat) (index : Nat) : List Nat :=
  if list.length ≤ index then list ++ List.replicate (index + 1 - list.length) 0 else list

/-- `Editor::GetSelectedObjectFlags`: returns `list[index]` when
`list.size() > index`, and the initial `result = 0` otherwise.  The C++
function only reads the table (it never resizes), so it is embedded as a
pure function of the store. -/
def getSelectedObjectFlags (store : FlagStore) (objectType : ObjectType) (index : Nat) : Nat :=
  (store objectType).getD index 0

/-- `Editor::ClearSelectedObject`: grow the sequence if needed, then
`list[index] &= ~flags` (the assignment narrows back to `uint8_t`). -/
def clearSelectedObject (store : FlagStore) (objectType : ObjectType) (index : Nat)
    (flags : Nat) : FlagStore :=
  fun t =>
    if t = objectType then
      let list := growTo (store objectType) index
      list.set index ((list.getD index 0 &&& not32 flags) % 256)
    else store t

/-- `Editor::SetSelectedObject`: silent no-op when `index` is the null
sentinel; otherwise grow the sequence if needed and `list[index] |= flags`
(the assignment narrows back to `uint8_t`). -/
def setSelectedObject (store : FlagStore) (objectType : ObjectType) (index : Nat)
    (flags : Nat) : FlagStore :=
  if index ≠ OBJECT_ENTRY_INDEX_NULL then
    fun t =>
      if t = objectType then
        let list := growTo (store objectType) index
        list.set index ((list.getD index 0 ||| flags) % 256)
      else store t
  else store

theorem growTo_lt_length (list : List Nat) (index : Nat) : index < (growTo list index).length := by
  unfold growTo
  split
  · simp only [List.length_append, List.length_replicate]
    omega
  · omega

theorem growTo_getD (list : List Nat) (index : Nat) :
    (growTo list index).getD index 0 = list.getD index 0 := by
  unfold growTo
  split
  · next h =>
    simp only [List.getD_eq_getElem?_getD]
    rw [List.getElem?_append_right h, List.getElem?_eq_none h, List.getElem?_replicate]
    simp only [Option.getD_none]
    split
    · rfl
    · next h2 => exact absurd (by omega) h2
  · rfl

theorem getD_set_self_of_lt (l : List Nat) (i a : Nat) (h : i < l.length) :
    (l.set i a).getD i 0 = a := by
  simp only [List.getD_eq_getElem?_getD, List.getElem?_set_self h, Option.getD_some]

theorem getD_lt_of_bounded (l : List Nat) (i : Nat) (hl : ∀ v ∈ l, v < 256) :
    l.getD i 0 < 256 := by
  by_cases h : i < l.length
  · rw [List.getD_eq_getElem?_getD, List.getElem?_eq_getElem h]
    exact hl _ (List.getElem_mem h)
  · rw [List.getD_eq_getElem?_getD, List.getElem?_eq_none (by omega)]
    simp

theorem byte_clear_eq (v f : Nat) (hv : v < 256) :
    (v &&& not32 f) % 256 = v &&& (255 ^^^ f % 256) := by
  apply Nat.eq_of_testBit_eq
  intro j
  have h256 : (256 : Nat) = 2 ^ 8 := by norm_num
  have h255 : (255 : Nat) = 2 ^ 8 - 1 := by norm_num
  rw [h256, h255]
  simp only [not32, h256, Nat.testBit_mod_two_pow, Nat.testBit_and, Nat.testBit_xor,
    Nat.testBit_two_pow_sub_one]
  by_cases hj : j < 8
  · have hj32 : j < 32 := by omega
    simp [hj, hj32]
  · have hvj : v.testBit j = false :=
      Nat.testBit_lt_two_pow (Nat.lt_of_lt_of_le hv (by rw [h256]; exact Nat.pow_le_pow_right (by omega) (by omega)))
    simp [hj, hvj]

theorem byte_set_clear_eq (v f : Nat) (hv : v < 256) :
    ((v ||| f) % 256 &&& not32 f) % 256 = v &&& (255 ^^^ f % 256) := by
  apply Nat.eq_of_testBit_eq
  intro j
  have h256 : (256 : Nat) = 2 ^ 8 := by norm_num
  have h255 : (255 : Nat) = 2 ^ 8 - 1 := by norm_num
  rw [h256, h255]
  simp only [not32, h256, Nat.testBit_mod_two_pow, Nat.testBit_and, Nat.testBit_or,
    Nat.testBit_xor, Nat.testBit_two_pow_sub_one]
  by_cases hj : j < 8
  · have hj32 : j < 32 := by omega
    by_cases hfj : f.testBit j <;> simp [hj, hj32, hfj]
  · have hvj : v.testBit j = false :=
      Nat.testBit_lt_two_pow (Nat.lt_of_lt_of_le hv (by rw [h256]; exact Nat.pow_le_pow_right (by omega) (by omega)))
    simp [hj, hvj]

/-- C6: for every object type `k`, index `i` and flag mask `f`, running
`SetSelectedObject(k, i, f)` followed by `ClearSelectedObject(k, i, f)`
leaves `GetSelectedObjectFlags(k, i)` equal to its value before the set,
restricted to the bits not in `f` (within the 8-bit slot).  The bound
hypothesis states that every stored entry fits in a byte, which holds for
every store the `uint8_t` table can represent. -/
theorem set_then_clear_restricts (store : FlagStore) (k : ObjectType) (i f : Nat)
    (hWF : ∀ t, ∀ v ∈ store t, v < 256) :
    getSelectedObjectFlags (clearSelectedObject (setSelectedObject store k i f) k i f) k i
      = getSelectedObjectFlags store k i &&& (255 ^^^ f % 256) := by
  have hv : (store k).getD i 0 < 256 := getD_lt_of_bounded _ _ (hWF k)
  unfold setSelectedObject
  split
  · -- index is not the null sentinel: the set really happens
    unfold clearSelectedObject getSelectedObjectFlags
    simp only [eq_self_iff_true, if_true]
    set l1 := growTo (store k) i with hl1
    have hlen1 : i < l1.length := growTo_lt_length _ _
    have hset : (l1.set i ((l1.getD i 0 ||| f) % 256)).getD i 0 = (l1.getD i 0 ||| f) % 256 :=
      getD_set_self_of_lt _ _ _ hlen1
    have hlen2 : ¬ ((l1.set i ((l1.getD i 0 ||| f) % 256)).length ≤ i) := by
      rw [List.length_set]; omega
    have hgrow2 : growTo (l1.set i ((l1.getD i 0 ||| f) % 256)) i
        = l1.set i ((l1.getD i 0 ||| f) % 256) := by
      unfold growTo; rw [if_neg hlen2]
    rw [hgrow2, hset, getD_set_self_of_lt _ _ _ (by rw [List.length_set]; omega)]
    rw [hl1, growTo_getD]
    exact byte_set_clear_eq _ _ hv
  · -- index is the null sentinel: the set is a silent no-op
    unfold clearSelectedObject getSelectedObjectFlags
    simp only [eq_self_iff_true, if_true]
    set l1 := growTo (store k) i with hl1
    have hlen1 : i < l1.length := growTo_lt_length _ _
    rw [getD_set_self_of_lt _ _ _ hlen1, hl1, growTo_getD]
    exact byte_clear_eq _ _ hv

/-- Concrete store used by the flag-store witnesses. -/
def witnessStore : FlagStore := fun t => if t = ObjectType.Ride then [200] else []

theorem set_then_clear_restricts_witness :
    getSelectedObjectFlags
        (clearSelectedObject (setSelectedObject witnessStore ObjectType.Ride 0 12)
          ObjectType.Ride 0 12) ObjectType.Ride 0
      = getSelectedObjectFlags witnessStore ObjectType.Ride 0 &&& (255 ^^^ 12 % 256) := by
  apply set_then_clear_restricts
  intro t v hv
  unfold witnessStore at hv
  by_cases h : t = ObjectType.Ride
  · rw [if_pos h] at hv
    simp at hv
    omega
  · rw [if_neg h] at hv
    simp at hv

/-- C7: `GetSelectedObjectFlags` on a store whose dense sequence for the
requested kind is shorter than `index + 1` returns 0, and in particular it
returns 0 on a fresh store.  The C++ function only reads the vector
(`list.size()` and `list[index]`), never resizes it, so its embedding is a
pure function of the store — no sequence is grown or allocated. -/
theorem getFlags_short_sequence_zero (store : FlagStore) (k : ObjectType) (i : Nat)
    (h : (store k).length ≤ i) :
    getSelectedObjectFlags store k i = 0
      ∧ getSelectedObjectFlags freshFlagStore k i = 0 := by
  constructor
  · unfold getSelectedObjectFlags
    rw [List.getD_eq_getElem?_getD, List.getElem?_eq_none h]
    rfl
  · unfold getSelectedObjectFlags freshFlagStore
    rfl

theorem getFlags_short_sequence_zero_witness :
    getSelectedObjectFlags witnessStore ObjectType.Water 3 = 0
      ∧ getSelectedObjectFlags freshFlagStore ObjectType.Water 3 = 0 :=
  getFlags_short_sequence_zero witnessStore ObjectType.Water 3 (by decide)

/-- C9: at the null-index sentinel, `SetSelectedObject` is a silent no-op,
but `ClearSelectedObject` has no such guard — on a store whose sequence for
`k` is no longer than the sentinel it grows the sequence to `sentinel + 1`
(zero-filling) and AND-NOTs the mask into that slot. -/
theorem clear_at_null_sentinel (store : FlagStore) (k : ObjectType) (f : Nat)
    (h : (store k).length ≤ OBJECT_ENTRY_INDEX_NULL) :
    setSelectedObject store k OBJECT_ENTRY_INDEX_NULL f = store
      ∧ ((clearSelectedObject store k OBJECT_ENTRY_INDEX_NULL f) k).length
          = OBJECT_ENTRY_INDEX_NULL + 1
      ∧ getSelectedObjectFlags (clearSelectedObject store k OBJECT_ENTRY_INDEX_NULL f) k
            OBJECT_ENTRY_INDEX_NULL
          = (getSelectedObjectFlags store k OBJECT_ENTRY_INDEX_NULL &&& not32 f) % 256 := by
  refine ⟨?_, ?_, ?_⟩
  · unfold setSelectedObject
    rw [if_neg (by simp)]
  · unfold clearSelectedObject
    simp only [eq_self_iff_true, if_true]
    rw [List.length_set]
    unfold growTo
    rw [if_pos h]
    simp only [List.length_append, List.length_replicate]
    omega
  · unfold clearSelectedObject getSelectedObjectFlags
    simp only [eq_self_iff_true, if_true]
    rw [getD_set_self_of_lt _ _ _ (growTo_lt_length _ _), growTo_getD]

theorem clear_at_null_sentinel_witness :
    setSelectedObject freshFlagStore ObjectType.Ride OBJECT_ENTRY_INDEX_NULL 7 = freshFlagStore
      ∧ ((clearSelectedObject freshFlagStore ObjectType.Ride OBJECT_ENTRY_INDEX_NULL 7)
            ObjectType.Ride).length = OBJECT_ENTRY_INDEX_NULL + 1
      ∧ getSelectedObjectFlags
            (clearSelectedObject freshFlagStore ObjectType.Ride OBJECT_ENTRY_INDEX_NULL 7)
            ObjectType.Ride OBJECT_ENTRY_INDEX_NULL
          = (getSelectedObjectFlags freshFlagStore ObjectType.Ride OBJECT_ENTRY_INDEX_NULL
              &&& not32 7) % 256 :=
  clear_at_null_sentinel freshFlagStore ObjectType.Ride 7 (by simp [freshFlagStore])

/-! ## Screen flags

Modelled from the spec: the `SCREEN_FLAGS_*` bit values are declared
outside `src/`; the spec only requires a bitfield in which exactly one
editor-mode bit is set at a time, so any three distinct bits suffice. -/

/-- Modelled from the spec: the scenario-editor screen-flags bit. -/
def SCREEN_FLAGS_SCENARIO_EDITOR : Nat := 2

/-- Modelled from the spec: the track-designer screen-flags bit. -/
def SCREEN_FLAGS_TRACK_DESIGNER : Nat := 4

/-- Modelled from the spec: the track-manager screen-flags bit. -/
def SCREEN_FLAGS_TRACK_MANAGER : Nat := 8

/-! ## Object-group validator (`CheckObjectSelection`)

The selection predicates `EditorCheckObjectGroupAtLeastOneSurfaceSelected`
and `EditorCheckObjectGroupAtLeastOneSelected` live in
`EditorObjectSelectionSession.cpp`, outside `src/`; they are therefore
taken as parameters, exactly as the collaborator facade describes them. -/

/-- The local `bool isTrackDesignerManager = gScreenFlags &
(SCREEN_FLAGS_TRACK_DESIGNER | SCREEN_FLAGS_TRACK_MANAGER)` of
`CheckObjectSelection`. -/
def isTrackDesignerManager (screenFlags : Nat) : Bool :=
  screenFlags &&& (SCREEN_FLAGS_TRACK_DESIGNER ||| SCREEN_FLAGS_TRACK_MANAGER) != 0

/-- `Editor::CheckObjectSelection`.  The two `if (!isTrackDesignerManager)`
blocks of the source are encoded by guarding each early return of those
blocks with `!isTrackDesignerManager`. -/
def checkObjectSelection (screenFlags : Nat)
    (atLeastOneSurfaceSelected : Bool → Bool)
    (atLeastOneSelected : ObjectType → Bool) : ObjectType × StringId :=
  if !isTrackDesignerManager screenFlags && !atLeastOneSurfaceSelected false then
    (ObjectType.FootpathSurface,
      StringId.STR_AT_LEAST_ONE_FOOTPATH_NON_QUEUE_SURFACE_OBJECT_MUST_BE_SELECTED)
  else if !isTrackDesignerManager screenFlags && !atLeastOneSurfaceSelected true then
    (ObjectType.FootpathSurface,
      StringId.STR_AT_LEAST_ONE_FOOTPATH_QUEUE_SURFACE_OBJECT_MUST_BE_SELECTED)
  else if !isTrackDesignerManager screenFlags && !atLeastOneSelected ObjectType.FootpathRailings then
    (ObjectType.FootpathRailings,
      StringId.STR_AT_LEAST_ONE_FOOTPATH_RAILING_OBJECT_MUST_BE_SELECTED)
  else if !atLeastOneSelected ObjectType.Ride then
    (ObjectType.Ride, StringId.STR_AT_LEAST_ONE_RIDE_OBJECT_MUST_BE_SELECTED)
  else if !atLeastOneSelected ObjectType.Station then
    (ObjectType.Station, StringId.STR_AT_LEAST_ONE_STATION_OBJECT_MUST_BE_SELECTED)
  else if !atLeastOneSelected ObjectType.TerrainSurface then
    (ObjectType.TerrainSurface, StringId.STR_AT_LEAST_ONE_TERRAIN_SURFACE_OBJECT_MUST_BE_SELECTED)
  else if !atLeastOneSelected ObjectType.TerrainEdge then
    (ObjectType.TerrainEdge, StringId.STR_AT_LEAST_ONE_TERRAIN_EDGE_OBJECT_MUST_BE_SELECTED)
  else if !isTrackDesignerManager screenFlags && !atLeastOneSelected ObjectType.ParkEntrance then
    (ObjectType.ParkEntrance, StringId.STR_PARK_ENTRANCE_TYPE_MUST_BE_SELECTED)
  else if !isTrackDesignerManager screenFlags && !atLeastOneSelected ObjectType.Water then
    (ObjectType.Water, StringId.STR_WATER_TYPE_MUST_BE_SELECTED)
  else
    (ObjectType.None, StringId.STR_NONE)

/-- The rule table of specification §4.B, in the exact order written there.
Each entry is `(rule passes, offending kind, message code)`; the first
three rules and the last two apply only outside track-designer and
track-manager modes. -/
def objectSelectionRules (isTDM : Bool)
    (atLeastOneSurfaceSelected : Bool → Bool)
    (atLeastOneSelected : ObjectType → Bool) : List (Bool × ObjectType × StringId) :=
  (if isTDM then [] else
    [(atLeastOneSurfaceSelected false, ObjectType.FootpathSurface,
        StringId.STR_AT_LEAST_ONE_FOOTPATH_NON_QUEUE_SURFACE_OBJECT_MUST_BE_SELECTED),
     (atLeastOneSurfaceSelected true, ObjectType.FootpathSurface,
        StringId.STR_AT_LEAST_ONE_FOOTPATH_QUEUE_SURFACE_OBJECT_MUST_BE_SELECTED),
     (atLeastOneSelected ObjectType.FootpathRailings, ObjectType.FootpathRailings,
        StringId.STR_AT_LEAST_ONE_FOOTPATH_RAILING_OBJECT_MUST_BE_SELECTED)])
  ++ [(atLeastOneSelected ObjectType.Ride, ObjectType.Ride,
        StringId.STR_AT_LEAST_ONE_RIDE_OBJECT_MUST_BE_SELECTED),
      (atLeastOneSelected ObjectType.Station, ObjectType.Station,
        StringId.STR_AT_LEAST_ONE_STATION_OBJECT_MUST_BE_SELECTED),
      (atLeastOneSelected ObjectType.TerrainSurface, ObjectType.TerrainSurface,
        StringId.STR_AT_LEAST_ONE_TERRAIN_SURFACE_OBJECT_MUST_BE_SELECTED),
      (atLeastOneSelected ObjectType.TerrainEdge, ObjectType.TerrainEdge,
        StringId.STR_AT_LEAST_ONE_TERRAIN_EDGE_OBJECT_MUST_BE_SELECTED)]
  ++ (if isTDM then [] else
    [(atLeastOneSelected ObjectType.ParkEntrance, ObjectType.ParkEntrance,
        StringId.STR_PARK_ENTRANCE_TYPE_MUST_BE_SELECTED),
     (atLeastOneSelected ObjectType.Water, ObjectType.Water,
        StringId.STR_WATER_TYPE_MUST_BE_SELECTED)])

/-- First-failure-wins reading of a rule table: return the
`(offendingKind, messageCode)` tuple of the earliest failing rule, and
`(None, "no message")` when every rule passes. -/
def firstFailedRule : List (Bool × ObjectType × StringId) → ObjectType × StringId
  | [] => (ObjectType.None, StringId.STR_NONE)
  | (passed, kind, msg) :: rest => if passed then firstFailedRule rest else (kind, msg)

/-- C2: `CheckObjectSelection` evaluates its rules in the exact order of
§4.B and returns the tuple of the first failing rule; when several rules
would fail only the earliest is reported, and when all pass it returns
`(None, "no message")`.  Formally, it equals the first-failure-wins
reading of the §4.B rule table for every screen-flags value and every pair
of selection predicates. -/
theorem checkObjectSelection_first_failure (screenFlags : Nat)
    (atLeastOneSurfaceSelected : Bool → Bool)
    (atLeastOneSelected : ObjectType → Bool) :
    checkObjectSelection screenFlags atLeastOneSurfaceSelected atLeastOneSelected
      = firstFailedRule (objectSelectionRules (isTrackDesignerManager screenFlags)
          atLeastOneSurfaceSelected atLeastOneSelected) := by
  unfold checkObjectSelection objectSelectionRules
  cases hb : isTrackDesignerManager screenFlags <;>
    cases h1 : atLeastOneSurfaceSelected false <;>
    cases h2 : atLeastOneSurfaceSelected true <;>
    cases h3 : atLeastOneSelected ObjectType.FootpathRailings <;>
    cases h4 : atLeastOneSelected ObjectType.Ride <;>
    cases h5 : atLeastOneSelected ObjectType.Station <;>
    cases h6 : atLeastOneSelected ObjectType.TerrainSurface <;>
    cases h7 : atLeastOneSelected ObjectType.TerrainEdge <;>
    cases h8 : atLeastOneSelected ObjectType.ParkEntrance <;>
    cases h9 : atLeastOneSelected ObjectType.Water <;>
    simp [firstFailedRule]

/-! ## World state and collaborator environment

The controller mutates a handful of documented `GameState` fields plus the
globals `gScreenFlags` and `gScreenAge`; everything else it touches (the
map, entities, windows, viewports, audio, ...) lives behind collaborator
seams.  We model the documented fields explicitly and fold every seam
effect into an abstract world component `W`, with the seam functions
collected in `Env`. -/

/-- A park entrance as far as `CheckPark` consumes it: its stored facing
direction. -/
structure ParkEntrance where
  direction : Nat
  deriving DecidableEq

/-- The four replies of `FootpathIsConnectedToMapEdge`
(`FOOTPATH_SEARCH_*`). -/
inductive FootpathSearchResult
  | notFound
  | incomplete
  | tooComplex
  | success
  deriving DecidableEq

/-- Modelled from the spec: the `FileExtension` classification produced by
`GetFileExtensionType` (`FileClassifier.h`, outside `src/`): the four
legacy extensions, the native `.park` container, and everything else. -/
inductive FileExtensionType
  | SC6
  | SV6
  | SC4
  | SV4
  | PARK
  | Unknown
  deriving DecidableEq

/-- The world state the editor controller reads and writes: the documented
`GameState` fields, the globals `gScreenFlags`/`gScreenAge`, and an
abstract engine-world component `world : W` mutated only through
collaborator seams.  Money fields (`money64`) are `Int`;
`BankLoanInterestRate` (`uint8_t`) is a `Nat`. -/
structure GameState (W : Type) where
  world : W
  editorStep : EditorStep
  screenFlags : Nat
  screenAge : Nat
  parkFlags : Nat
  scenarioCategory : Nat
  scenarioName : StringId
  entrances : List ParkEntrance
  peepSpawns : List Unit
  parkSize : Nat
  entranceFee : Int
  guestInitialCash : Int
  initialCash : Int
  cash : Int
  bankLoan : Int
  maxBankLoan : Int
  bankLoanInterestRate : Nat
  numGuestsInPark : Nat
  numGuestsHeadingForPark : Nat
  numGuestsInParkLastWeek : Nat
  guestChangeModifier : Nat
  rides : List Unit

/-- Collaborator seams consumed by the controller (specification §4.F),
plus the two external compile-time constants the cleanup clamps against.
`loadParkFromFile` and `importParkFile` return `none` on failure; per
specification §7 a failed load commits no partial world state.
`footpathSearch` is `FootpathIsConnectedToMapEdge` with `flags = 0`
(a pure query) and `unownPath` is the state effect of the same search
re-run with the unown-path-tiles flag `(1 << 5)`. -/
structure Env (W : Type) where
  computeParkSize : W → Nat
  footpathSearch : ParkEntrance → Nat → W → FootpathSearchResult
  unownPath : ParkEntrance → Nat → W → W
  loadParkFromFile : String → GameState W → Option (GameState W)
  importParkFile : String → GameState W → Option (GameState W)
  getExtension : String → String
  classifyExtension : String → FileExtensionType
  gameStateInitAll : GameState W → GameState W
  scenarioReset : GameState W → GameState W
  stopAll : W → W
  objectListLoad : W → W
  unloadAllObjects : W → W
  viewportInitAll : W → W
  openEditorWindows : W → W
  setMainWindowLocation : W → W
  loadPalette : W → W
  finaliseMainView : W → W
  windowCloseAll : W → W
  setAllLandOwned : W → W
  unlinkAllRideBanners : W → W
  rideInitAll : W → W
  clearGuestNames : W → W
  clearStaffNames : W → W
  resetAllEntities : W → W
  updateConsolidatedPatrolAreas : W → W
  climateReset : W → W
  newsInitQueue : W → W
  maxEntranceFee : Int
  maxBankLoanInterestRate : Nat

/-- Modelled from the spec: `DirectionReverse` (declared outside `src/`);
the spec says "compute the reverse of its stored facing direction", i.e.
turn a four-valued direction by two quarters. -/
def directionReverse (d : Nat) : Nat := (d + 2) % 4

/-- Apply a collaborator effect that touches only the abstract engine
world, leaving every documented field unchanged. -/
def withWorld {W : Type} (f : W → W) (gs : GameState W) : GameState W :=
  { gs with world := f gs.world }

/-! ## Park validator (`CheckPark`) -/

/-- The entrance loop of `Editor::CheckPark`: for each entrance, query the
footpath subsystem in the reverse facing direction; `NotFound` and
`Incomplete`/`TooComplex` return the corresponding message immediately,
`Success` re-runs the search with the unown-path-tiles flag (its reply is
discarded; only its world effect remains) and continues. -/
def checkParkEntrancesLoop {W : Type} (env : Env W) :
    List ParkEntrance → W → Option StringId × W
  | [], w => (none, w)
  | e :: rest, w =>
    let direction := directionReverse e.direction
    match env.footpathSearch e direction w with
    | FootpathSearchResult.notFound =>
      (some StringId.STR_PARK_ENTRANCE_WRONG_DIRECTION_OR_NO_PATH, w)
    | FootpathSearchResult.incomplete =>
      (some StringId.STR_PARK_ENTRANCE_PATH_INCOMPLETE_OR_COMPLEX, w)
    | FootpathSearchResult.tooComplex =>
      (some StringId.STR_PARK_ENTRANCE_PATH_INCOMPLETE_OR_COMPLEX, w)
    | FootpathSearchResult.success =>
      checkParkEntrancesLoop env rest (env.unownPath e direction w)

/-- `Editor::CheckPark`.  `Park::UpdateSize` recomputes the owned-land
size from the world and stores it in the park-size cache before the first
check; the entrance loop threads its unown side-effects through the world;
the returned state carries every side-effect performed up to the point of
return. -/
def checkPark {W : Type} (env : Env W) (gs : GameState W) :
    (Bool × StringId) × GameState W :=
  let parkSize := env.computeParkSize gs.world
  let gs1 := { gs with parkSize := parkSize }
  if parkSize = 0 then
    ((false, StringId.STR_PARK_MUST_OWN_SOME_LAND), gs1)
  else if gs1.entrances.isEmpty then
    ((false, StringId.STR_NO_PARK_ENTRANCES), gs1)
  else
    match checkParkEntrancesLoop env gs1.entrances gs1.world with
    | (some msg, w) => ((false, msg), { gs1 with world := w })
    | (none, w) =>
      let gs2 := { gs1 with world := w }
      if gs2.peepSpawns.isEmpty then
        ((false, StringId.STR_PEEP_SPAWNS_NOT_SET), gs2)
      else
        ((true, StringId.STR_NONE), gs2)

/-- Specification §4.C, step 3, read off the spec's words: the message of
the first entrance whose footpath search fails, with the successful
searches before it re-run with the unown side-effect before continuing. -/
def entranceFailureMessage {W : Type} (env : Env W) :
    List ParkEntrance → W → Option StringId
  | [], _ => none
  | e :: rest, w =>
    match env.footpathSearch e (directionReverse e.direction) w with
    | FootpathSearchResult.notFound =>
      some StringId.STR_PARK_ENTRANCE_WRONG_DIRECTION_OR_NO_PATH
    | FootpathSearchResult.incomplete =>
      some StringId.STR_PARK_ENTRANCE_PATH_INCOMPLETE_OR_COMPLEX
    | FootpathSearchResult.tooComplex =>
      some StringId.STR_PARK_ENTRANCE_PATH_INCOMPLETE_OR_COMPLEX
    | FootpathSearchResult.success =>
      entranceFailureMessage env rest (env.unownPath e (directionReverse e.direction) w)

/-- Specification §4.C as written: the ordered cascade of park checks,
returning the message of the first failing check. -/
def checkParkSpec {W : Type} (env : Env W) (gs : GameState W) : Bool × StringId :=
  if env.computeParkSize gs.world = 0 then
    (false, StringId.STR_PARK_MUST_OWN_SOME_LAND)
  else if gs.entrances.isEmpty then
    (false, StringId.STR_NO_PARK_ENTRANCES)
  else
    match entranceFailureMessage env gs.entrances gs.world with
    | some msg => (false, msg)
    | none =>
      if gs.peepSpawns.isEmpty then
        (false, StringId.STR_PEEP_SPAWNS_NOT_SET)
      else
        (true, StringId.STR_NONE)

/-- "Every entrance's reverse-direction footpath search returns Success",
with the searches evaluated in order on the world threaded through the
unown side-effects of the earlier successes. -/
def allEntrancesConnected {W : Type} (env : Env W) :
    List ParkEntrance → W → Bool
  | [], _ => true
  | e :: rest, w =>
    match env.footpathSearch e (directionReverse e.direction) w with
    | FootpathSearchResult.success =>
      allEntrancesConnected env rest (env.unownPath e (directionReverse e.direction) w)
    | _ => false

/-- The world after stripping ownership along the traced paths of the
maximal prefix of entrances whose searches succeed: each successful
entrance's unown re-run is applied, and the first failing entrance stops
the processing. -/
def unownTracedPaths {W : Type} (env : Env W) :
    List ParkEntrance → W → W
  | [], w => w
  | e :: rest, w =>
    match env.footpathSearch e (directionReverse e.direction) w with
    | FootpathSearchResult.success =>
      unownTracedPaths env rest (env.unownPath e (directionReverse e.direction) w)
    | _ => w

theorem checkParkEntrancesLoop_fst {W : Type} (env : Env W) (es : List ParkEntrance) (w : W) :
    (checkParkEntrancesLoop env es w).1 = entranceFailureMessage env es w := by
  induction es generalizing w with
  | nil => rfl
  | cons e rest ih =>
    unfold checkParkEntrancesLoop entranceFailureMessage
    cases h : env.footpathSearch e (directionReverse e.direction) w <;> simp [h, ih]

theorem checkParkEntrancesLoop_snd {W : Type} (env : Env W) (es : List ParkEntrance) (w : W) :
    (checkParkEntrancesLoop env es w).2 = unownTracedPaths env es w := by
  induction es generalizing w with
  | nil => rfl
  | cons e rest ih =>
    unfold checkParkEntrancesLoop unownTracedPaths
    cases h : env.footpathSearch e (directionReverse e.direction) w <;> simp [h, ih]

theorem entranceFailureMessage_none_iff {W : Type} (env : Env W) (es : List ParkEntrance)
    (w : W) :
    entranceFailureMessage env es w = none ↔ allEntrancesConnected env es w = true := by
  induction es generalizing w with
  | nil => simp [entranceFailureMessage, allEntrancesConnected]
  | cons e rest ih =>
    unfold entranceFailureMessage allEntrancesConnected
    cases h : env.footpathSearch e (directionReverse e.direction) w <;> simp [h, ih]

/-- C3: `CheckPark` computes exactly the §4.C cascade — its result equals
the specification cascade for every world, and it returns
`(true, "no message")` precisely when the recomputed owned-land size is
nonzero, the entrance list is non-empty, every entrance's
reverse-direction footpath search succeeds, and the peep-spawn list is
non-empty. -/
theorem checkPark_matches_spec {W : Type} (env : Env W) (gs : GameState W) :
    (checkPark env gs).1 = checkParkSpec env gs
      ∧ ((checkPark env gs).1 = (true, StringId.STR_NONE) ↔
          (env.computeParkSize gs.world ≠ 0 ∧ gs.entrances ≠ []
            ∧ allEntrancesConnected env gs.entrances gs.world = true
            ∧ gs.peepSpawns ≠ [])) := by
  have hfst := checkParkEntrancesLoop_fst env gs.entrances gs.world
  have hiff := entranceFailureMessage_none_iff env gs.entrances gs.world
  by_cases hsize : env.computeParkSize gs.world = 0
  · constructor
    · simp [checkPark, checkParkSpec, hsize]
    · simp [checkPark, hsize]
  · by_cases hemp : gs.entrances.isEmpty
    · have hnil : gs.entrances = [] := List.isEmpty_iff.mp hemp
      constructor
      · simp [checkPark, checkParkSpec, hsize, hemp]
      · simp [checkPark, hsize, hemp, hnil]
    · cases hloop : checkParkEntrancesLoop env gs.entrances gs.world with
      | mk msg w =>
        rw [hloop] at hfst
        cases msg with
        | some m =>
          constructor
          · simp [checkPark, checkParkSpec, hsize, hemp, hloop, ← hfst]
          · have hnotconn : ¬ allEntrancesConnected env gs.entrances gs.world = true := by
              intro hconn
              have hn := hiff.mpr hconn
              rw [← hfst] at hn
              simp at hn
            simp [checkPark, hsize, hemp, hloop, hnotconn]
        | none =>
          have hconn : allEntrancesConnected env gs.entrances gs.world = true :=
            hiff.mp hfst.symm
          by_cases hspawn : gs.peepSpawns.isEmpty
          · have hnil : gs.peepSpawns = [] := List.isEmpty_iff.mp hspawn
            constructor
            · simp [checkPark, checkParkSpec, hsize, hemp, hloop, ← hfst, hspawn]
            · simp [checkPark, hsize, hemp, hloop, hspawn, hnil]
          · constructor
            · simp [checkPark, checkParkSpec, hsize, hemp, hloop, ← hfst, hspawn]
            · have hne : gs.entrances ≠ [] := by
                intro hc
                exact hemp (by simp [hc])
              have hns : gs.peepSpawns ≠ [] := by
                intro hc
                exact hspawn (by simp [hc])
              simp [checkPark, hsize, hemp, hloop, hspawn, hne, hns, hconn]

/-- C10: `CheckPark` is not atomic on failure.  Whenever it fails at a
check after the first, its returned state keeps every side-effect already
performed: the park-size cache holds the freshly recomputed owned-land
size, and ownership has been stripped along the traced paths of every
entrance that succeeded before the failure. -/
theorem checkPark_failure_keeps_side_effects {W : Type} (env : Env W) (gs : GameState W)
    (m : StringId) (hFail : (checkPark env gs).1 = (false, m))
    (hNotFirst : m ≠ StringId.STR_PARK_MUST_OWN_SOME_LAND) :
    (checkPark env gs).2.parkSize = env.computeParkSize gs.world
      ∧ (checkPark env gs).2.world = unownTracedPaths env gs.entrances gs.world := by
  have hsnd := checkParkEntrancesLoop_snd env gs.entrances gs.world
  by_cases hsize : env.computeParkSize gs.world = 0
  · exfalso
    simp [checkPark, hsize] at hFail
    exact hNotFirst hFail.symm
  · by_cases hemp : gs.entrances.isEmpty
    · have hnil : gs.entrances = [] := List.isEmpty_iff.mp hemp
      constructor
      · simp [checkPark, hsize, hemp]
      · simp [checkPark, hsize, hemp, hnil, unownTracedPaths]
    · cases hloop : checkParkEntrancesLoop env gs.entrances gs.world with
      | mk msg w =>
        rw [hloop] at hsnd
        simp only at hsnd
        cases msg with
        | some m2 =>
          constructor
          · simp [checkPark, hsize, hemp, hloop]
          · simp [checkPark, hsize, hemp, hloop, hsnd]
        | none =>
          by_cases hspawn : gs.peepSpawns.isEmpty
          · constructor
            · simp [checkPark, hsize, hemp, hloop, hspawn]
            · simp [checkPark, hsize, hemp, hloop, hspawn, hsnd]
          · constructor
            · simp [checkPark, hsize, hemp, hloop, hspawn]
            · simp [checkPark, hsize, hemp, hloop, hspawn, hsnd]

/-! ## Constants declared outside `src/` -/

/-- Modelled from the spec: a park-flags bit; the positions are declared
outside `src/`, any distinct bits suffice. -/
def PARK_FLAGS_NO_MONEY : Nat := 2 ^ 11

/-- Modelled from the spec: the free-entry park-flags bit. -/
def PARK_FLAGS_PARK_FREE_ENTRY : Nat := 2 ^ 12

/-- Modelled from the spec: the sprites-initialised park-flags bit. -/
def PARK_FLAGS_SPRITES_INITIALISED : Nat := 2 ^ 13

/-- Modelled from the spec: the show-real-guest-names park-flags bit. -/
def PARK_FLAGS_SHOW_REAL_GUEST_NAMES : Nat := 2 ^ 14

/-- Modelled from the spec: the "Other" scenario category (value declared
outside `src/`). -/
def SCENARIO_CATEGORY_OTHER : Nat := 4

/-- Modelled from the spec: the file-picker's OK result code; the spec only
distinguishes OK from non-OK. -/
def MODAL_RESULT_OK : Int := 1

/-- Modelled from the spec: the `_GBP` money literal operator is declared
outside `src/`; the specification states every money bound of the cleanup
in plain currency-units (`10.00`, `100000`, `5,000,000`), so the literal
maps whole currency-units to themselves. -/
def moneyGBP (x : Int) : Int := x

/-- `std::clamp(v, lo, hi)` on a totally ordered integer type
(`v < lo ? lo : hi < v ? hi : v`). -/
def stdClamp (v lo hi : Int) : Int := if v < lo then lo else if hi < v then hi else v

/-- `std::clamp<uint8_t>`. -/
def stdClampNat (v lo hi : Nat) : Nat := if v < lo then lo else if hi < v then hi else v

theorem stdClamp_mem (v lo hi : Int) (h : lo ≤ hi) :
    lo ≤ stdClamp v lo hi ∧ stdClamp v lo hi ≤ hi := by
  unfold stdClamp
  split
  · omega
  · split <;> omega

theorem stdClampNat_mem (v lo hi : Nat) (h : lo ≤ hi) :
    lo ≤ stdClampNat v lo hi ∧ stdClampNat v lo hi ≤ hi := by
  unfold stdClampNat
  split
  · omega
  · split <;> omega

/-! ## Landscape-import cleanup (`ClearMapForEditing`) -/

/-- `Editor::ClearMapForEditing`, in the source order.  `MapRemoveAllRides`
is the collaborator that empties the ride list (modelled from the spec:
"Remove all rides from the map"); `FinanceResetCashToInitial` is the
collaborator that refreshes the runtime cash-on-hand to the initial value
(modelled from the spec: "refresh the runtime cash-on-hand to that initial
value"); the remaining collaborator calls touch only the engine world. -/
def clearMapForEditing {W : Type} (env : Env W) (fromSave : Bool)
    (gs : GameState W) : GameState W :=
  let gs := { gs with rides := ([] : List Unit) }
  let gs := withWorld env.unlinkAllRideBanners gs
  let gs := withWorld env.rideInitAll gs
  let gs := withWorld env.clearGuestNames gs
  let gs := withWorld env.clearStaffNames gs
  let gs := withWorld env.resetAllEntities gs
  let gs := withWorld env.updateConsolidatedPatrolAreas gs
  let gs := { gs with numGuestsInPark := 0, numGuestsHeadingForPark := 0,
                      numGuestsInParkLastWeek := 0, guestChangeModifier := 0 }
  let gs :=
    if fromSave then
      let gs := { gs with parkFlags := gs.parkFlags ||| PARK_FLAGS_NO_MONEY }
      let gs :=
        if gs.entranceFee = 0 then
          { gs with parkFlags := gs.parkFlags ||| PARK_FLAGS_PARK_FREE_ENTRY }
        else
          { gs with parkFlags := gs.parkFlags &&& not32 PARK_FLAGS_PARK_FREE_ENTRY }
      let gs := { gs with parkFlags := gs.parkFlags &&& not32 PARK_FLAGS_SPRITES_INITIALISED }
      let gs :=
        { gs with guestInitialCash := stdClamp gs.guestInitialCash (moneyGBP 10) env.maxEntranceFee }
      let gs := { gs with initialCash := min gs.initialCash 100000 }
      let gs := { gs with cash := gs.initialCash }
      let gs := { gs with bankLoan := stdClamp gs.bankLoan (moneyGBP 0) (moneyGBP 5000000) }
      let gs := { gs with maxBankLoan := stdClamp gs.maxBankLoan (moneyGBP 0) (moneyGBP 5000000) }
      { gs with bankLoanInterestRate := stdClampNat gs.bankLoanInterestRate 5 env.maxBankLoanInterestRate }
    else gs
  let gs := withWorld env.climateReset gs
  withWorld env.newsInitQueue gs

/-- C4: after the Landscape-Import Cleanup runs with `fromSave = true`, for
every starting world state: guest-initial-cash is in
`[10.00, MaxEntranceFee]`, initial cash is at most `100000` and the
cash-on-hand has been refreshed to it after the clamp, bank loan and max
bank loan are each in `[0, 5,000,000]`, the interest rate is in
`[5, MaxInterestRate]`, no guests are counted in the park, and no rides
remain on the map.  The two hypotheses say the external clamp bounds are
ordered, which holds for the real constants (`999.00_GBP` and `80`). -/
theorem clearMapForEditing_fromSave_ranges {W : Type} (env : Env W) (gs : GameState W)
    (hFee : moneyGBP 10 ≤ env.maxEntranceFee)
    (hRate : 5 ≤ env.maxBankLoanInterestRate) :
    moneyGBP 10 ≤ (clearMapForEditing env true gs).guestInitialCash
      ∧ (clearMapForEditing env true gs).guestInitialCash ≤ env.maxEntranceFee
      ∧ (clearMapForEditing env true gs).initialCash ≤ 100000
      ∧ (clearMapForEditing env true gs).cash = (clearMapForEditing env true gs).initialCash
      ∧ 0 ≤ (clearMapForEditing env true gs).bankLoan
      ∧ (clearMapForEditing env true gs).bankLoan ≤ moneyGBP 5000000
      ∧ 0 ≤ (clearMapForEditing env true gs).maxBankLoan
      ∧ (clearMapForEditing env true gs).maxBankLoan ≤ moneyGBP 5000000
      ∧ 5 ≤ (clearMapForEditing env true gs).bankLoanInterestRate
      ∧ (clearMapForEditing env true gs).bankLoanInterestRate ≤ env.maxBankLoanInterestRate
      ∧ (clearMapForEditing env true gs).numGuestsInPark = 0
      ∧ (clearMapForEditing env true gs).rides = [] := by
  have hGuest := stdClamp_mem gs.guestInitialCash (moneyGBP 10) env.maxEntranceFee hFee
  have hLoan := stdClamp_mem gs.bankLoan (moneyGBP 0) (moneyGBP 5000000) (by norm_num [moneyGBP])
  have hMaxLoan := stdClamp_mem gs.maxBankLoan (moneyGBP 0) (moneyGBP 5000000) (by norm_num [moneyGBP])
  have hIR := stdClampNat_mem gs.bankLoanInterestRate 5 env.maxBankLoanInterestRate hRate
  have hmin : min gs.initialCash 100000 ≤ (100000 : Int) := min_le_right _ _
  by_cases hfee : gs.entranceFee = 0 <;>
    refine ⟨?_, ?_, ?_, ?_, ?_, ?_, ?_, ?_, ?_, ?_, ?_, ?_⟩ <;>
    simp [clearMapForEditing, withWorld, hfee] <;>
    first
      | exact hGuest.1
      | exact hGuest.2
      | exact hmin
      | exact hLoan.1
      | exact hLoan.2
      | exact hMaxLoan.1
      | exact hMaxLoan.2
      | exact hIR.1
      | exact hIR.2

/-! ## Session controller entry points -/

/-- Modelled from the spec: `String::IEquals` (outside `src/`) is
case-insensitive string equality, compared here character by character
over the strings' code points. -/
def strIEquals (a b : String) : Bool :=
  a.data.map Char.toLower == b.data.map Char.toLower

/-- The "from save" condition of `Editor::ReadS4OrS6`, exactly as written
in the source:
`String::IEquals(extension, ".sv4") || String::IEquals(extension, ".sv6")
|| String::IEquals(extension, ".sv7") == 0`.  In C++ the third disjunct
compares the boolean to the integer 0, i.e. it holds whenever the
extension is NOT `.sv7`. -/
def svCheck (extension : String) : Bool :=
  strIEquals extension ".sv4" || strIEquals extension ".sv6"
    || (strIEquals extension ".sv7" == false)

/-- `Editor::AfterLoadCleanup`: run the cleanup, then jump to the
landscape-editor step, reset the screen age, enter scenario-editor screen
mode, and rebuild viewports/windows/main view. -/
def afterLoadCleanup {W : Type} (env : Env W) (loadedFromSave : Bool)
    (gs : GameState W) : GameState W :=
  let gs := clearMapForEditing env loadedFromSave gs
  let gs := { gs with editorStep := EditorStep.LandscapeEditor }
  let gs := { gs with screenAge := 0 }
  let gs := { gs with screenFlags := SCREEN_FLAGS_SCENARIO_EDITOR }
  let gs := withWorld env.viewportInitAll gs
  let gs := withWorld env.openEditorWindows gs
  withWorld env.finaliseMainView gs

/-- `Editor::ReadS4OrS6`: compute the extension, attempt the load (failure
returns `false` with no state committed), classify "from save" with
`svCheck`, then run the after-load cleanup. -/
def readS4OrS6 {W : Type} (env : Env W) (path : String)
    (gs : GameState W) : Bool × GameState W :=
  let extension := env.getExtension path
  match env.loadParkFromFile path gs with
  | none => (false, gs)
  | some gs1 =>
    let loadedFromSave := svCheck extension
    (true, afterLoadCleanup env loadedFromSave gs1)

/-- `Editor::ReadPark`: the native importer inside the failure-guarded
block; a thrown error yields a plain `false`.  On success the after-load
cleanup always runs with `fromSave = true`. -/
def readPark {W : Type} (env : Env W) (path : String)
    (gs : GameState W) : Bool × GameState W :=
  match env.importParkFile path gs with
  | none => (false, gs)
  | some gs1 => (true, afterLoadCleanup env true gs1)

/-- `Editor::LoadLandscape`: close all windows, then dispatch on the file
extension. -/
def loadLandscape {W : Type} (env : Env W) (path : String)
    (gs : GameState W) : Bool × GameState W :=
  let gs := { gs with world := env.windowCloseAll gs.world }
  match env.classifyExtension path with
  | FileExtensionType.SC6 => readS4OrS6 env path gs
  | FileExtensionType.SV6 => readS4OrS6 env path gs
  | FileExtensionType.SC4 => readS4OrS6 env path gs
  | FileExtensionType.SV4 => readS4OrS6 env path gs
  | FileExtensionType.PARK => readPark env path gs
  | FileExtensionType.Unknown => (false, gs)

/-- `Editor::Load`: enter the scenario editor from the title screen. -/
def load {W : Type} (env : Env W) (gs : GameState W) : GameState W :=
  let gs := withWorld env.stopAll gs
  let gs := withWorld env.objectListLoad gs
  let gs := env.gameStateInitAll gs
  let gs := { gs with screenFlags := SCREEN_FLAGS_SCENARIO_EDITOR }
  let gs := { gs with editorStep := EditorStep.ObjectSelection }
  let gs := { gs with parkFlags := gs.parkFlags ||| PARK_FLAGS_SHOW_REAL_GUEST_NAMES }
  let gs := { gs with scenarioCategory := SCENARIO_CATEGORY_OTHER }
  let gs := withWorld env.viewportInitAll gs
  let gs := withWorld env.openEditorWindows gs
  let gs := withWorld env.setMainWindowLocation gs
  let gs := withWorld env.loadPalette gs
  let gs := { gs with screenAge := 0 }
  { gs with scenarioName := StringId.STR_MY_NEW_SCENARIO }

/-- `Editor::LoadTrackDesigner`. -/
def loadTrackDesigner {W : Type} (env : Env W) (gs : GameState W) : GameState W :=
  let gs := withWorld env.stopAll gs
  let gs := { gs with screenFlags := SCREEN_FLAGS_TRACK_DESIGNER }
  let gs := { gs with screenAge := 0 }
  let gs := withWorld env.unloadAllObjects gs
  let gs := withWorld env.objectListLoad gs
  let gs := env.gameStateInitAll gs
  let gs := withWorld env.setAllLandOwned gs
  let gs := { gs with editorStep := EditorStep.ObjectSelection }
  let gs := withWorld env.viewportInitAll gs
  let gs := withWorld env.openEditorWindows gs
  let gs := withWorld env.setMainWindowLocation gs
  withWorld env.loadPalette gs

/-- `Editor::LoadTrackManager`: identical to the track designer except for
the screen-flags bit. -/
def loadTrackManager {W : Type} (env : Env W) (gs : GameState W) : GameState W :=
  let gs := withWorld env.stopAll gs
  let gs := { gs with screenFlags := SCREEN_FLAGS_TRACK_MANAGER }
  let gs := { gs with screenAge := 0 }
  let gs := withWorld env.unloadAllObjects gs
  let gs := withWorld env.objectListLoad gs
  let gs := env.gameStateInitAll gs
  let gs := withWorld env.setAllLandOwned gs
  let gs := { gs with editorStep := EditorStep.ObjectSelection }
  let gs := withWorld env.viewportInitAll gs
  let gs := withWorld env.openEditorWindows gs
  let gs := withWorld env.setMainWindowLocation gs
  withWorld env.loadPalette gs

/-- `Editor::ConvertSaveToScenarioCallback`: a non-OK picker result or a
failed park load returns immediately; on success, reset the scenario
state, enter scenario-editor screen mode and jump to the
objective-selection step. -/
def convertSaveToScenarioCallback {W : Type} (env : Env W) (result : Int)
    (path : String) (gs : GameState W) : GameState W :=
  if result ≠ MODAL_RESULT_OK then gs
  else
    match env.loadParkFromFile path gs with
    | none => gs
    | some gs1 =>
      let gs2 := env.scenarioReset gs1
      let gs2 := { gs2 with screenFlags := SCREEN_FLAGS_SCENARIO_EDITOR }
      let gs2 := { gs2 with editorStep := EditorStep.ObjectiveSelection }
      let gs2 := { gs2 with scenarioCategory := SCENARIO_CATEGORY_OTHER }
      let gs2 := withWorld env.viewportInitAll gs2
      let gs2 := withWorld env.openEditorWindows gs2
      let gs2 := withWorld env.finaliseMainView gs2
      { gs2 with screenAge := 0 }

/-- C5: the convert-save-to-scenario picker callback is a silent no-op —
the whole state (editor step, screen flags, world state included) is
untouched — when the picker reports a non-OK result, and likewise when the
subsequent park-file load fails (per specification §7 a failed load
commits no partial world state, which the `Option`-returning load seam
encodes). -/
theorem convertCallback_cancel_noop {W : Type} (env : Env W) (result : Int)
    (path : String) (gs : GameState W) :
    (result ≠ MODAL_RESULT_OK → convertSaveToScenarioCallback env result path gs = gs)
      ∧ (env.loadParkFromFile path gs = none →
          convertSaveToScenarioCallback env MODAL_RESULT_OK path gs = gs) := by
  constructor
  · intro h
    simp [convertSaveToScenarioCallback, h]
  · intro h
    simp [convertSaveToScenarioCallback, h]

theorem afterLoadCleanup_editorStep {W : Type} (env : Env W) (b : Bool) (gs : GameState W) :
    (afterLoadCleanup env b gs).editorStep = EditorStep.LandscapeEditor := by
  simp [afterLoadCleanup, withWorld]

theorem readS4OrS6_true_step {W : Type} (env : Env W) (path : String) (gs gs2 : GameState W)
    (h : readS4OrS6 env path gs = (true, gs2)) :
    gs2.editorStep = EditorStep.LandscapeEditor := by
  unfold readS4OrS6 at h
  cases hl : env.loadParkFromFile path gs with
  | none => rw [hl] at h; simp at h
  | some gs1 =>
    rw [hl] at h
    simp only [Prod.mk.injEq] at h
    rw [← h.2]
    exact afterLoadCleanup_editorStep env _ gs1

theorem readPark_true_step {W : Type} (env : Env W) (path : String) (gs gs2 : GameState W)
    (h : readPark env path gs = (true, gs2)) :
    gs2.editorStep = EditorStep.LandscapeEditor := by
  unfold readPark at h
  cases hl : env.importParkFile path gs with
  | none => rw [hl] at h; simp at h
  | some gs1 =>
    rw [hl] at h
    simp only [Prod.mk.injEq] at h
    rw [← h.2]
    exact afterLoadCleanup_editorStep env true gs1

/-- C8: every editor entry point establishes its prescribed step:
enter-scenario-editor, enter-track-designer and enter-track-manager leave
the step at `ObjectSelection`; a successful convert-save-to-scenario
leaves it at `ObjectiveSelection`; a successful landscape load leaves it
at `LandscapeEditor`; and none of them leaves the step `Invalid`. -/
theorem entry_points_establish_steps {W : Type} (env : Env W) (gs : GameState W)
    (path : String) :
    (load env gs).editorStep = EditorStep.ObjectSelection
      ∧ (loadTrackDesigner env gs).editorStep = EditorStep.ObjectSelection
      ∧ (loadTrackManager env gs).editorStep = EditorStep.ObjectSelection
      ∧ (∀ gs1, env.loadParkFromFile path gs = some gs1 →
          (convertSaveToScenarioCallback env MODAL_RESULT_OK path gs).editorStep
            = EditorStep.ObjectiveSelection)
      ∧ (∀ ok gs2, loadLandscape env path gs = (ok, gs2) → ok = true →
          gs2.editorStep = EditorStep.LandscapeEditor)
      ∧ (load env gs).editorStep ≠ EditorStep.Invalid
      ∧ (loadTrackDesigner env gs).editorStep ≠ EditorStep.Invalid
      ∧ (loadTrackManager env gs).editorStep ≠ EditorStep.Invalid := by
  have h1 : (load env gs).editorStep = EditorStep.ObjectSelection := by
    simp [load, withWorld]
  have h2 : (loadTrackDesigner env gs).editorStep = EditorStep.ObjectSelection := by
    simp [loadTrackDesigner, withWorld]
  have h3 : (loadTrackManager env gs).editorStep = EditorStep.ObjectSelection := by
    simp [loadTrackManager, withWorld]
  have g1 : (load env gs).editorStep ≠ EditorStep.Invalid := by
    rw [h1]
    simp
  have g2 : (loadTrackDesigner env gs).editorStep ≠ EditorStep.Invalid := by
    rw [h2]
    simp
  have g3 : (loadTrackManager env gs).editorStep ≠ EditorStep.Invalid := by
    rw [h3]
    simp
  refine ⟨h1, h2, h3, ?_, ?_, g1, g2, g3⟩
  · intro gs1 hl
    simp [convertSaveToScenarioCallback, hl, withWorld]
  · intro ok gs2 h hok
    subst hok
    unfold loadLandscape at h
    cases hext : env.classifyExtension path <;> rw [hext] at h
    case SC6 => exact readS4OrS6_true_step env path _ gs2 h
    case SV6 => exact readS4OrS6_true_step env path _ gs2 h
    case SC4 => exact readS4OrS6_true_step env path _ gs2 h
    case SV4 => exact readS4OrS6_true_step env path _ gs2 h
    case PARK => exact readPark_true_step env path _ gs2 h
    case Unknown => simp at h

/-! ## Concrete environments and states for the evaluation theorems -/

/-- Trivial collaborator environment over a unit engine world. -/
def unitEnv : Env Unit where
  computeParkSize := fun _ => 0
  footpathSearch := fun _ _ _ => FootpathSearchResult.success
  unownPath := fun _ _ w => w
  loadParkFromFile := fun _ gs => some gs
  importParkFile := fun _ _ => none
  getExtension := fun s => s
  classifyExtension := fun _ => FileExtensionType.Unknown
  gameStateInitAll := fun gs => gs
  scenarioReset := fun gs => gs
  stopAll := fun w => w
  objectListLoad := fun w => w
  unloadAllObjects := fun w => w
  viewportInitAll := fun w => w
  openEditorWindows := fun w => w
  setMainWindowLocation := fun w => w
  loadPalette := fun w => w
  finaliseMainView := fun w => w
  windowCloseAll := fun w => w
  setAllLandOwned := fun w => w
  unlinkAllRideBanners := fun w => w
  rideInitAll := fun w => w
  clearGuestNames := fun w => w
  clearStaffNames := fun w => w
  resetAllEntities := fun w => w
  updateConsolidatedPatrolAreas := fun w => w
  climateReset := fun w => w
  newsInitQueue := fun w => w
  maxEntranceFee := 999
  maxBankLoanInterestRate := 80

/-- A concrete world state (a saved game with out-of-range finances and
two rides), used by the evaluation theorems. -/
def baseState : GameState Unit where
  world := ()
  editorStep := EditorStep.Invalid
  screenFlags := 0
  screenAge := 7
  parkFlags := 0
  scenarioCategory := 0
  scenarioName := StringId.STR_NONE
  entrances := []
  peepSpawns := []
  parkSize := 0
  entranceFee := 0
  guestInitialCash := 3
  initialCash := 250000
  cash := 0
  bankLoan := 10000000
  maxBankLoan := -5
  bankLoanInterestRate := 2
  numGuestsInPark := 5
  numGuestsHeadingForPark := 1
  numGuestsInParkLastWeek := 2
  guestChangeModifier := 3
  rides := [(), ()]

/-- Environment whose file picker load always fails. -/
def failLoadEnv : Env Unit :=
  { unitEnv with loadParkFromFile := fun _ _ => none }

/-- Environment whose extension classifier reports a legacy `.sv6` file. -/
def sv6Env : Env Unit :=
  { unitEnv with classifyExtension := fun _ => FileExtensionType.SV6 }

/-- Environment whose extension classifier reports a legacy `.sc6` file. -/
def sc6Env : Env Unit :=
  { unitEnv with classifyExtension := fun _ => FileExtensionType.SC6 }

theorem clearMapForEditing_fromSave_ranges_witness :
    moneyGBP 10 ≤ (clearMapForEditing unitEnv true baseState).guestInitialCash
      ∧ (clearMapForEditing unitEnv true baseState).guestInitialCash ≤ unitEnv.maxEntranceFee
      ∧ (clearMapForEditing unitEnv true baseState).initialCash ≤ 100000
      ∧ (clearMapForEditing unitEnv true baseState).cash
          = (clearMapForEditing unitEnv true baseState).initialCash
      ∧ 0 ≤ (clearMapForEditing unitEnv true baseState).bankLoan
      ∧ (clearMapForEditing unitEnv true baseState).bankLoan ≤ moneyGBP 5000000
      ∧ 0 ≤ (clearMapForEditing unitEnv true baseState).maxBankLoan
      ∧ (clearMapForEditing unitEnv true baseState).maxBankLoan ≤ moneyGBP 5000000
      ∧ 5 ≤ (clearMapForEditing unitEnv true baseState).bankLoanInterestRate
      ∧ (clearMapForEditing unitEnv true baseState).bankLoanInterestRate
          ≤ unitEnv.maxBankLoanInterestRate
      ∧ (clearMapForEditing unitEnv true baseState).numGuestsInPark = 0
      ∧ (clearMapForEditing unitEnv true baseState).rides = [] :=
  clearMapForEditing_fromSave_ranges unitEnv baseState (by decide) (by decide)

theorem convertCallback_cancel_noop_witness :
    convertSaveToScenarioCallback failLoadEnv 0 "park.sv6" baseState = baseState
      ∧ convertSaveToScenarioCallback failLoadEnv MODAL_RESULT_OK "park.sv6" baseState
          = baseState :=
  ⟨(convertCallback_cancel_noop failLoadEnv 0 "park.sv6" baseState).1 (by decide),
   (convertCallback_cancel_noop failLoadEnv MODAL_RESULT_OK "park.sv6" baseState).2 rfl⟩

theorem entry_points_establish_steps_witness :
    (load sv6Env baseState).editorStep = EditorStep.ObjectSelection
      ∧ (convertSaveToScenarioCallback sv6Env MODAL_RESULT_OK "park.sv6" baseState).editorStep
          = EditorStep.ObjectiveSelection
      ∧ ((loadLandscape sv6Env "park.sv6" baseState).2).editorStep
          = EditorStep.LandscapeEditor := by
  obtain ⟨h1, _, _, h4, h5, _⟩ := entry_points_establish_steps sv6Env baseState "park.sv6"
  exact ⟨h1, h4 baseState rfl,
    h5 (loadLandscape sv6Env "park.sv6" baseState).1
      (loadLandscape sv6Env "park.sv6" baseState).2 rfl rfl⟩

/-- Collaborator environment over a counting world for the park-validator
evaluation: the world counts the unown re-runs performed so far, the first
search succeeds and every later search fails. -/
def countEnv : Env Nat :=
  { computeParkSize := fun _ => 1
    footpathSearch := fun _ _ w =>
      if w = 0 then FootpathSearchResult.success else FootpathSearchResult.notFound
    unownPath := fun _ _ w => w + 1
    loadParkFromFile := fun _ gs => some gs
    importParkFile := fun _ _ => none
    getExtension := fun s => s
    classifyExtension := fun _ => FileExtensionType.Unknown
    gameStateInitAll := fun gs => gs
    scenarioReset := fun gs => gs
    stopAll := fun w => w
    objectListLoad := fun w => w
    unloadAllObjects := fun w => w
    viewportInitAll := fun w => w
    openEditorWindows := fun w => w
    setMainWindowLocation := fun w => w
    loadPalette := fun w => w
    finaliseMainView := fun w => w
    windowCloseAll := fun w => w
    setAllLandOwned := fun w => w
    unlinkAllRideBanners := fun w => w
    rideInitAll := fun w => w
    clearGuestNames := fun w => w
    clearStaffNames := fun w => w
    resetAllEntities := fun w => w
    updateConsolidatedPatrolAreas := fun w => w
    climateReset := fun w => w
    newsInitQueue := fun w => w
    maxEntranceFee := 999
    maxBankLoanInterestRate := 80 }

/-- A park with two entrances and no peep spawns over the counting
world. -/
def parkState : GameState Nat where
  world := 0
  editorStep := EditorStep.LandscapeEditor
  screenFlags := 2
  screenAge := 0
  parkFlags := 0
  scenarioCategory := 0
  scenarioName := StringId.STR_NONE
  entrances := [{ direction := 0 }, { direction := 1 }]
  peepSpawns := []
  parkSize := 0
  entranceFee := 0
  guestInitialCash := 10
  initialCash := 0
  cash := 0
  bankLoan := 0
  maxBankLoan := 0
  bankLoanInterestRate := 5
  numGuestsInPark := 0
  numGuestsHeadingForPark := 0
  numGuestsInParkLastWeek := 0
  guestChangeModifier := 0
  rides := []

theorem checkPark_failure_keeps_side_effects_witness :
    (checkPark countEnv parkState).2.parkSize = countEnv.computeParkSize parkState.world
      ∧ (checkPark countEnv parkState).2.world
          = unownTracedPaths countEnv parkState.entrances parkState.world :=
  checkPark_failure_keeps_side_effects countEnv parkState
    StringId.STR_PARK_ENTRANCE_WRONG_DIRECTION_OR_NO_PATH rfl (by decide)

/-- C1: the legacy reader's "from save" classification is broken for
`.sc*` scenarios.  The source condition ends with
`String::IEquals(extension, ".sv7") == 0`, which holds for every extension
other than `.sv7`, so the whole disjunction is true for `.sc6` and the
cleanup runs with `fromSave = true` — observable because a successful
`.sc6` landscape load sets the no-money park flag on a state that did not
have it. -/
theorem readS4OrS6_sc6_misclassified_as_save :
    svCheck ".sc6" = true
      ∧ (loadLandscape sc6Env "park.sc6" baseState).1 = true
      ∧ baseState.parkFlags &&& PARK_FLAGS_NO_MONEY = 0
      ∧ (loadLandscape sc6Env "park.sc6" baseState).2.parkFlags &&& PARK_FLAGS_NO_MONEY ≠ 0 := by
  refine ⟨rfl, rfl, by decide, ?_⟩
  decide

end Editor
